import Mathlib

/-!
Shallow embedding of the pricing & coupon engine of the Pakkhtun Biryani
backend (src/main.py, src/schemas.py): the `/cart/apply-coupon` endpoint
(`apply_coupon`) and the `/orders` endpoint (`create_order`), together with
the coupon lookup they share.  Monetary amounts (Python floats holding
currency values) are modelled as exact rationals; Python's `round(x, 2)`
becomes `round2`.
-/

namespace PakkhtunBiryani

/-- Python `round(x, 2)`: round to two decimal places (exact-value model;
the tie-breaking rule is irrelevant to every property below). -/
def round2 (x : ℚ) : ℚ := (round (x * 100) : ℚ) / 100

/-- Python `str.upper()`: per-character uppercase (ASCII model, matching the
all-ASCII coupon codes of this backend). -/
def upper (s : String) : String := ⟨s.data.map Char.toUpper⟩

/-- Values of `Coupon.type` in schemas.py: `Literal["flat", "percent"]`. -/
inductive CouponType where
  | flat
  | percent
deriving DecidableEq, Repr

/-- Model of `Coupon` from schemas.py (code, description, type, value, min_order, active). -/
structure Coupon where
  code : String
  description : Option String
  type : CouponType
  value : ℚ
  min_order : ℚ
  active : Bool
deriving DecidableEq, Repr

/-- Values of `delivery_type` in CreateOrderPayload: `Literal["delivery", "takeaway"]`. -/
inductive DeliveryType where
  | delivery
  | takeaway
deriving DecidableEq, Repr

/-- Values of `payment_method`: `Literal["razorpay", "upi", "cod"]`. -/
inductive PaymentMethod where
  | razorpay
  | upi
  | cod
deriving DecidableEq, Repr

/-- Values of `payment_status`: `Literal["pending", "paid", "cod"]`. -/
inductive PaymentStatus where
  | pending
  | paid
  | cod
deriving DecidableEq, Repr

/-- Values of the `Order.status` literal from schemas.py. -/
inductive OrderStatus where
  | pending
  | accepted
  | being_prepared
  | out_for_delivery
  | delivered
  | cancelled
deriving DecidableEq, Repr

/-- Values of `OrderItem.variant`: `Literal["half", "full"]`. -/
inductive Variant where
  | half
  | full
deriving DecidableEq, Repr

/-- Model of `OrderItem` from schemas.py. -/
structure OrderItem where
  item_id : String
  title : String
  variant : Variant
  quantity : ℕ
  unit_price : ℚ
  total_price : ℚ
  image_url : Option String
deriving DecidableEq, Repr

/-- Model of `DeliveryAddress` from schemas.py. -/
structure DeliveryAddress where
  label : Option String
  line1 : String
  line2 : Option String
  city : String
  state : String
  pincode : String
  lat : Option ℚ
  lng : Option ℚ
deriving DecidableEq, Repr

/-- Model of `Order` from schemas.py: the document built and persisted by `create_order`. -/
structure Order where
  user_id : Option String
  phone : String
  items : List OrderItem
  subtotal : ℚ
  discount : ℚ
  delivery_fee : ℚ
  total : ℚ
  delivery_type : DeliveryType
  address : Option DeliveryAddress
  payment_method : PaymentMethod
  payment_status : PaymentStatus
  status : OrderStatus
  eta_minutes : Option ℤ
  coupon_code : Option String
  notes : Option String
deriving DecidableEq, Repr

/-- Model of `fastapi.HTTPException(status_code=..., detail=...)`. -/
structure HTTPError where
  status_code : ℕ
  detail : String
deriving DecidableEq, Repr

/-- Modelled from the spec: the coupon store of the persistence collaborator
(`database.py` is not under src/); a MongoDB collection is modelled as a list
of coupon documents in natural order, and `find_one(filter)` as the first
list element satisfying the filter. -/
structure AppState where
  coupons : List Coupon
  orders : List Order
deriving DecidableEq, Repr

/-- The coupon lookup shared by main.py lines 129 and 237:
`db["coupon"].find_one({"code": code.upper(), "active": True})` — first stored
coupon whose code equals the upper-cased caller code and whose active flag is
true.  (The spec calls this collaborator `findActiveCouponByCode`.) -/
def findActiveCouponByCode (coupons : List Coupon) (code : String) : Option Coupon :=
  coupons.find? fun c => c.code == upper code && c.active

/-- Request body of `POST /cart/apply-coupon`. -/
structure ApplyCouponPayload where
  code : String
  subtotal : ℚ
deriving DecidableEq, Repr

/-- Response dict of `apply_coupon`; keys absent from a branch are `none`. -/
structure ApplyCouponResult where
  applied : Bool
  discount : ℚ
  reason : Option String
  code : Option String
  detail : Option String
deriving DecidableEq, Repr

/-- Endpoint `apply_coupon` (main.py lines 127-138), the spec's `applyCouponPreview`. -/
def apply_coupon (coupons : List Coupon) (payload : ApplyCouponPayload) :
    Except HTTPError ApplyCouponResult :=
  match findActiveCouponByCode coupons payload.code with
  | none => .error { status_code := 404, detail := "Coupon not found" }
  | some c =>
    if payload.subtotal < c.min_order then
      .ok { applied := false, discount := 0, reason := some ("Minimum order not met"),
            code := none, detail := none }
    else
      let discount : ℚ :=
        if c.type = .flat then c.value else payload.subtotal * c.value / 100
      .ok { applied := true, discount := round2 discount, reason := none,
            code := some c.code, detail := c.description }

/-- Request body of `POST /orders` (`CreateOrderPayload` in main.py). -/
structure CreateOrderPayload where
  phone : String
  items : List OrderItem
  delivery_type : DeliveryType
  address : Option DeliveryAddress
  coupon_code : Option String
  payment_method : PaymentMethod
deriving DecidableEq, Repr

/-- Discount computation of `create_order` (main.py lines 235-239).  Python's
`if payload.coupon_code:` is falsy both for `None` and for the empty string,
so an empty coupon code skips the lookup entirely. -/
def orderDiscount (coupons : List Coupon) (coupon_code : Option String)
    (subtotal : ℚ) : ℚ :=
  match coupon_code with
  | none => 0
  | some code =>
    if code = "" then 0
    else
      match findActiveCouponByCode coupons code with
      | none => 0
      | some c =>
        if c.min_order ≤ subtotal then
          if c.type = .flat then c.value else subtotal * c.value / 100
        else 0

/-- Simulated payment payload returned for razorpay/upi orders
(main.py lines 260-262); `order_id` (a fresh ObjectId string in Python) is
modelled as the insertion position in the order store. -/
structure PaymentInfo where
  gateway : PaymentMethod
  order_id : ℕ
  amount : ℚ
deriving DecidableEq, Repr

/-- Response of `POST /orders`: the persisted order plus the optional
payment payload. -/
structure CreateOrderResponse where
  order : Order
  payment : Option PaymentInfo
deriving DecidableEq, Repr

/-- Endpoint `create_order` (main.py lines 228-263), the spec's `priceOrder` plus
persistence.  `create_document` (from `database.py`, not under src/) is
modelled from the spec as the order-storage collaborator appending the
document to the order collection; the returned order is the stored document. -/
def create_order (st : AppState) (payload : CreateOrderPayload) :
    Except HTTPError (AppState × CreateOrderResponse) :=
  if payload.items = [] then
    .error { status_code := 400, detail := "No items" }
  else
    let subtotal : ℚ := (payload.items.map OrderItem.total_price).sum
    let delivery_fee : ℚ := if payload.delivery_type = .takeaway then 0 else 20
    let discount : ℚ := orderDiscount st.coupons payload.coupon_code subtotal
    let total : ℚ := max 0 (subtotal - discount + delivery_fee)
    let order : Order :=
      { user_id := none
        phone := payload.phone
        items := payload.items
        subtotal := subtotal
        discount := round2 discount
        delivery_fee := delivery_fee
        total := round2 total
        delivery_type := payload.delivery_type
        address := payload.address
        payment_method := payload.payment_method
        payment_status := if payload.payment_method = .cod then .cod else .pending
        status := .pending
        eta_minutes := some 35
        coupon_code := payload.coupon_code
        notes := none }
    let payment : Option PaymentInfo :=
      if payload.payment_method = .razorpay ∨ payload.payment_method = .upi then
        some { gateway := payload.payment_method, order_id := st.orders.length,
               amount := round2 total }
      else none
    .ok ({ coupons := st.coupons, orders := st.orders ++ [order] },
         { order := order, payment := payment })

/-! ### Concrete fixtures -/

/-- The seeded coupon of `seed_data` (main.py lines 375-383). -/
def pakktun15 : Coupon :=
  { code := "PAKKTUN15", description := some ("15% off on orders above 499"),
    type := .percent, value := 15, min_order := 499, active := true }

/-- Store holding exactly the seeded coupon and no orders. -/
def seededState : AppState := { coupons := [pakktun15], orders := [] }

/-- A single line item of the given price. -/
def sampleItem (price : ℚ) : OrderItem :=
  { item_id := "m1", title := "Signature Matka Chicken Biryani", variant := .full,
    quantity := 1, unit_price := price, total_price := price, image_url := none }

/-- A one-item delivery order paying cash on delivery. -/
def samplePayload (price : ℚ) (code : Option String) : CreateOrderPayload :=
  { phone := "9999999999", items := [sampleItem price], delivery_type := .delivery,
    address := none, coupon_code := code, payment_method := .cod }

/-- An unclamped 200% coupon with no minimum order, for exercising the
floor-at-zero rule. -/
def bigCoupon : Coupon :=
  { code := "BIG", description := none, type := .percent, value := 200,
    min_order := 0, active := true }

/-- Store holding only `bigCoupon`. -/
def bigState : AppState := { coupons := [bigCoupon], orders := [] }

/-! ### Helper lemmas -/

theorem upper_eq_empty_iff {s : String} : upper s = "" ↔ s = "" := by
  constructor
  · intro h
    cases s with
    | mk data =>
      have hd : data.map Char.toUpper = [] := congrArg String.data h
      cases data with
      | nil => rfl
      | cons a as => simp at hd
  · intro h
    rw [h]
    rfl

theorem round2_nonneg {x : ℚ} (hx : 0 ≤ x) : 0 ≤ round2 x := by
  have h1 : (0 : ℤ) ≤ round (x * 100) := by
    rw [round_eq]
    refine Int.le_floor.mpr ?_
    push_cast
    linarith
  have h2 : (0 : ℚ) ≤ (round (x * 100) : ℚ) := by exact_mod_cast h1
  unfold round2
  linarith

theorem orderDiscount_some (coupons : List Coupon) (code : String) (subtotal : ℚ)
    (hne : code ≠ "") :
    orderDiscount coupons (some code) subtotal =
      match findActiveCouponByCode coupons code with
      | none => 0
      | some c =>
        if c.min_order ≤ subtotal then
          if c.type = .flat then c.value else subtotal * c.value / 100
        else 0 := by
  simp [orderDiscount, hne]

/-! ### Claims -/

/-- C4: `create_order` fails with the 400 "No items" error exactly on an empty
items list, and returns a computed result on every non-empty items list. -/
theorem create_order_error_iff_no_items (st : AppState) (p : CreateOrderPayload) :
    (p.items = [] →
      create_order st p = .error { status_code := 400, detail := "No items" }) ∧
    (p.items ≠ [] → ∃ out, create_order st p = .ok out) := by
  constructor
  · intro h
    simp [create_order, h]
  · intro h
    unfold create_order
    rw [if_neg h]
    exact ⟨_, rfl⟩

/-- Witness for C4 at the empty payload and a one-item payload. -/
theorem create_order_error_iff_no_items_witness :
    create_order seededState
        { phone := "9999999999", items := [], delivery_type := .delivery,
          address := none, coupon_code := none, payment_method := .cod }
      = .error { status_code := 400, detail := "No items" } ∧
    (∃ out, create_order seededState (samplePayload 600 none) = .ok out) :=
  ⟨(create_order_error_iff_no_items seededState _).1 rfl,
   (create_order_error_iff_no_items seededState (samplePayload 600 none)).2 (by decide)⟩

/-- C5: `apply_coupon` raises 404 "Coupon not found" exactly when the code
resolves to no active coupon; a found coupon below its minimum order returns
the non-applied result with reason "Minimum order not met"; a found coupon at
or above its minimum order returns the applied result with the computed
discount. -/
theorem apply_coupon_trichotomy (coupons : List Coupon) (payload : ApplyCouponPayload) :
    (findActiveCouponByCode coupons payload.code = none →
      apply_coupon coupons payload =
        .error { status_code := 404, detail := "Coupon not found" }) ∧
    (∀ c, findActiveCouponByCode coupons payload.code = some c →
      payload.subtotal < c.min_order →
      apply_coupon coupons payload =
        .ok { applied := false, discount := 0,
              reason := some ("Minimum order not met"), code := none, detail := none }) ∧
    (∀ c, findActiveCouponByCode coupons payload.code = some c →
      c.min_order ≤ payload.subtotal →
      apply_coupon coupons payload =
        .ok { applied := true,
              discount := round2 (if c.type = .flat then c.value
                else payload.subtotal * c.value / 100),
              reason := none, code := some c.code, detail := c.description }) := by
  refine ⟨?_, ?_, ?_⟩
  · intro h
    simp [apply_coupon, h]
  · intro c hc hlt
    simp [apply_coupon, hc, hlt]
  · intro c hc hle
    simp [apply_coupon, hc, not_lt.mpr hle]

/-- Witness for C5: unknown code, the seeded coupon below threshold, and the
seeded coupon at threshold. -/
theorem apply_coupon_trichotomy_witness :
    apply_coupon [pakktun15] { code := "FAKE10", subtotal := 100 }
      = .error { status_code := 404, detail := "Coupon not found" } ∧
    apply_coupon [pakktun15] { code := "PAKKTUN15", subtotal := 300 }
      = .ok { applied := false, discount := 0,
              reason := some ("Minimum order not met"), code := none, detail := none } ∧
    apply_coupon [pakktun15] { code := "PAKKTUN15", subtotal := 600 }
      = .ok { applied := true,
              discount := round2 (if pakktun15.type = .flat then pakktun15.value
                else 600 * pakktun15.value / 100),
              reason := none, code := some pakktun15.code,
              detail := pakktun15.description } :=
  ⟨(apply_coupon_trichotomy [pakktun15] _).1 rfl,
   (apply_coupon_trichotomy [pakktun15] _).2.1 pakktun15 rfl (by decide),
   (apply_coupon_trichotomy [pakktun15] _).2.2 pakktun15 rfl (by decide)⟩

theorem apply_coupon_congr (coupons : List Coupon) (p₁ p₂ : ApplyCouponPayload)
    (hf : findActiveCouponByCode coupons p₁.code = findActiveCouponByCode coupons p₂.code)
    (hs : p₁.subtotal = p₂.subtotal) :
    apply_coupon coupons p₁ = apply_coupon coupons p₂ := by
  unfold apply_coupon
  rw [hf, hs]

/-- C6: the coupon lookup shared by both endpoints depends only on the
upper-cased caller code (hence is case-insensitive), returns only coupons
with `active = true`, and consequently `apply_coupon` and the discount
computation of `create_order` do not distinguish case variants of the
supplied code. -/
theorem coupon_lookup_case_insensitive (coupons : List Coupon) (code₁ code₂ : String)
    (h : upper code₁ = upper code₂) :
    findActiveCouponByCode coupons code₁ = findActiveCouponByCode coupons code₂ ∧
    (∀ c, findActiveCouponByCode coupons code₁ = some c → c.active = true) ∧
    (∀ s, apply_coupon coupons { code := code₁, subtotal := s } =
      apply_coupon coupons { code := code₂, subtotal := s }) ∧
    (∀ s, orderDiscount coupons (some code₁) s = orderDiscount coupons (some code₂) s) := by
  have hfind : findActiveCouponByCode coupons code₁ = findActiveCouponByCode coupons code₂ := by
    unfold findActiveCouponByCode
    rw [h]
  refine ⟨hfind, ?_, ?_, ?_⟩
  · intro c hc
    have hp := List.find?_some hc
    simp only [Bool.and_eq_true] at hp
    exact hp.2
  · intro s
    exact apply_coupon_congr coupons _ _ hfind rfl
  · intro s
    by_cases h1 : code₁ = ""
    · have h2 : code₂ = "" := by
        refine upper_eq_empty_iff.mp ?_
        rw [← h, h1]
        rfl
      rw [h1, h2]
    · have h2 : code₂ ≠ "" := by
        intro he
        exact h1 (upper_eq_empty_iff.mp (by rw [h, he]; rfl))
      rw [orderDiscount_some coupons code₁ s h1, orderDiscount_some coupons code₂ s h2, hfind]

/-- Witness for C6: lower-case "pakktun15" and the stored "PAKKTUN15". -/
theorem coupon_lookup_case_insensitive_witness :
    findActiveCouponByCode [pakktun15] "pakktun15" =
      findActiveCouponByCode [pakktun15] "PAKKTUN15" ∧
    apply_coupon [pakktun15] { code := "pakktun15", subtotal := 600 } =
      apply_coupon [pakktun15] { code := "PAKKTUN15", subtotal := 600 } ∧
    orderDiscount [pakktun15] (some ("pakktun15")) 600 =
      orderDiscount [pakktun15] (some ("PAKKTUN15")) 600 :=
  ⟨(coupon_lookup_case_insensitive [pakktun15] "pakktun15" "PAKKTUN15" rfl).1,
   (coupon_lookup_case_insensitive [pakktun15] "pakktun15" "PAKKTUN15" rfl).2.2.1 600,
   (coupon_lookup_case_insensitive [pakktun15] "pakktun15" "PAKKTUN15" rfl).2.2.2 600⟩

/-- C1: on a non-empty cart with a found active coupon meeting its minimum
order, the discount is `value` for a flat coupon and `subtotal * value / 100`
for a percent coupon, rounded to two decimals in the output of both
`create_order` and `apply_coupon`. -/
theorem eligible_discount_formula (st : AppState) (p : CreateOrderPayload)
    (code : String) (c : Coupon)
    (hcode : p.coupon_code = some code) (hne : code ≠ "")
    (hfind : findActiveCouponByCode st.coupons code = some c)
    (hitems : p.items ≠ [])
    (helig : c.min_order ≤ (p.items.map OrderItem.total_price).sum) :
    Except.map (fun out => out.2.order.discount) (create_order st p) =
      .ok (round2 (if c.type = .flat then c.value
        else (p.items.map OrderItem.total_price).sum * c.value / 100)) ∧
    Except.map ApplyCouponResult.discount
        (apply_coupon st.coupons
          { code := code, subtotal := (p.items.map OrderItem.total_price).sum }) =
      .ok (round2 (if c.type = .flat then c.value
        else (p.items.map OrderItem.total_price).sum * c.value / 100)) := by
  constructor
  · have hd : orderDiscount st.coupons p.coupon_code
        ((p.items.map OrderItem.total_price).sum)
        = (if c.type = .flat then c.value
          else (p.items.map OrderItem.total_price).sum * c.value / 100) := by
      simp [orderDiscount, hcode, hne, hfind, helig]
    simp [create_order, hitems, hd, Except.map]
  · simp [apply_coupon, hfind, not_lt.mpr helig, Except.map]

/-- Witness for C1: the seeded percent coupon on a 600-rupee cart. -/
theorem eligible_discount_formula_witness :
    Except.map (fun out => out.2.order.discount)
        (create_order seededState (samplePayload 600 (some ("PAKKTUN15")))) =
      .ok (round2 (if pakktun15.type = .flat then pakktun15.value
        else ((samplePayload 600 (some ("PAKKTUN15"))).items.map
          OrderItem.total_price).sum * pakktun15.value / 100)) ∧
    Except.map ApplyCouponResult.discount
        (apply_coupon seededState.coupons
          { code := "PAKKTUN15",
            subtotal := ((samplePayload 600 (some ("PAKKTUN15"))).items.map
              OrderItem.total_price).sum }) =
      .ok (round2 (if pakktun15.type = .flat then pakktun15.value
        else ((samplePayload 600 (some ("PAKKTUN15"))).items.map
          OrderItem.total_price).sum * pakktun15.value / 100)) :=
  eligible_discount_formula seededState (samplePayload 600 (some ("PAKKTUN15")))
    "PAKKTUN15" pakktun15 rfl (by decide) rfl (by simp [samplePayload])
    (by norm_num [samplePayload, sampleItem, pakktun15])

/-- C2: on a non-empty cart the stored total is
`round2 (max 0 (subtotal - discount + deliveryFee))` with the raw (unrounded)
discount, and this value is never negative, however large the discount. -/
theorem total_formula_and_nonneg (st : AppState) (p : CreateOrderPayload)
    (hitems : p.items ≠ []) :
    Except.map (fun out => out.2.order.total) (create_order st p) =
      .ok (round2 (max 0 ((p.items.map OrderItem.total_price).sum
        - orderDiscount st.coupons p.coupon_code ((p.items.map OrderItem.total_price).sum)
        + (if p.delivery_type = .takeaway then (0:ℚ) else 20)))) ∧
    (0:ℚ) ≤ round2 (max 0 ((p.items.map OrderItem.total_price).sum
        - orderDiscount st.coupons p.coupon_code ((p.items.map OrderItem.total_price).sum)
        + (if p.delivery_type = .takeaway then (0:ℚ) else 20))) := by
  constructor
  · simp [create_order, hitems, Except.map]
  · exact round2_nonneg (le_max_left 0 _)

/-- Witness for C2: a 200-percent coupon whose discount exceeds the subtotal;
the clamped total is still the claimed rounded maximum. -/
theorem total_formula_and_nonneg_witness :
    Except.map (fun out => out.2.order.total)
        (create_order bigState (samplePayload 100 (some ("BIG")))) =
      .ok (round2 (max 0 (((samplePayload 100 (some ("BIG"))).items.map
          OrderItem.total_price).sum
        - orderDiscount bigState.coupons (some ("BIG"))
            (((samplePayload 100 (some ("BIG"))).items.map OrderItem.total_price).sum)
        + 20))) ∧
    (0:ℚ) ≤ round2 (max 0 (((samplePayload 100 (some ("BIG"))).items.map
          OrderItem.total_price).sum
        - orderDiscount bigState.coupons (some ("BIG"))
            (((samplePayload 100 (some ("BIG"))).items.map OrderItem.total_price).sum)
        + 20)) :=
  total_formula_and_nonneg bigState (samplePayload 100 (some ("BIG"))) (by decide)

/-- C3: with no coupon code, or a code resolving to no active coupon, a
non-empty cart of nonnegative line totals prices to discount 0, the fixed
delivery fee, and total `round2 (subtotal + deliveryFee)`. -/
theorem no_coupon_pricing (st : AppState) (p : CreateOrderPayload)
    (hitems : p.items ≠ [])
    (hnn : ∀ i ∈ p.items, 0 ≤ i.total_price)
    (hcoup : ∀ code, p.coupon_code = some code →
      findActiveCouponByCode st.coupons code = none) :
    Except.map (fun out =>
        (out.2.order.discount, out.2.order.delivery_fee, out.2.order.total))
        (create_order st p) =
      .ok (0, (if p.delivery_type = .takeaway then (0:ℚ) else 20),
        round2 ((p.items.map OrderItem.total_price).sum
          + (if p.delivery_type = .takeaway then (0:ℚ) else 20))) := by
  have hd : orderDiscount st.coupons p.coupon_code
      ((p.items.map OrderItem.total_price).sum) = 0 := by
    cases hcc : p.coupon_code with
    | none => simp [orderDiscount]
    | some code =>
      by_cases hne : code = ""
      · simp [orderDiscount, hne]
      · simp [orderDiscount, hne, hcoup code hcc]
  have hsub : 0 ≤ (p.items.map OrderItem.total_price).sum := by
    refine List.sum_nonneg ?_
    intro x hx
    obtain ⟨i, hi, rfl⟩ := List.mem_map.mp hx
    exact hnn i hi
  have hfee : (0:ℚ) ≤ (if p.delivery_type = .takeaway then (0:ℚ) else 20) := by
    split <;> norm_num
  have hmax : max 0 ((p.items.map OrderItem.total_price).sum
      + (if p.delivery_type = .takeaway then (0:ℚ) else 20))
      = (p.items.map OrderItem.total_price).sum
        + (if p.delivery_type = .takeaway then (0:ℚ) else 20) :=
    max_eq_right (by linarith)
  have hr : round2 0 = 0 := by
    simp [round2]
  simp [create_order, hitems, hd, hmax, hr, Except.map]

/-- Witness for C3: a 100-rupee takeaway cart with no coupon code. -/
theorem no_coupon_pricing_witness :
    Except.map (fun out =>
        (out.2.order.discount, out.2.order.delivery_fee, out.2.order.total))
        (create_order seededState
          { phone := "9999999999", items := [sampleItem 100],
            delivery_type := .takeaway, address := none, coupon_code := none,
            payment_method := .cod }) =
      .ok (0, 0, round2 (([sampleItem 100].map OrderItem.total_price).sum + 0)) :=
  no_coupon_pricing seededState
    { phone := "9999999999", items := [sampleItem 100], delivery_type := .takeaway,
      address := none, coupon_code := none, payment_method := .cod }
    (by decide) (by decide) (fun code h => by simp at h)

/-- A stored active coupon whose code is the empty string; Python's falsy
check in `create_order` skips the lookup for it while `apply_coupon` still
resolves and applies it. -/
def emptyCodeCoupon : Coupon :=
  { code := "", description := none, type := .flat, value := 5, min_order := 0,
    active := true }

/-- Store holding only `emptyCodeCoupon`. -/
def emptyCodeState : AppState := { coupons := [emptyCodeCoupon], orders := [] }

/-- C7 counterexample: the active coupon with code `""` is resolvable by the
code `""`, and `apply_coupon` grants its flat discount 5 on subtotal 10, but
`create_order` on a cart summing to 10 with that same coupon code computes
discount 0, because `if payload.coupon_code:` is falsy on the empty string. -/
theorem apply_vs_order_discount_mismatch :
    findActiveCouponByCode emptyCodeState.coupons ("") = some emptyCodeCoupon ∧
    Except.map ApplyCouponResult.discount
        (apply_coupon emptyCodeState.coupons { code := "", subtotal := 10 }) =
      .ok 5 ∧
    Except.map (fun out => out.2.order.discount)
        (create_order emptyCodeState (samplePayload 10 (some ("")))) = .ok 0 ∧
    (5:ℚ) ≠ 0 := by
  have hf : findActiveCouponByCode emptyCodeState.coupons ("") = some emptyCodeCoupon := rfl
  refine ⟨hf, ?_, ?_, by norm_num⟩
  · norm_num [apply_coupon, hf, emptyCodeCoupon, round2, Except.map]
  · norm_num [create_order, samplePayload, sampleItem, orderDiscount, round2,
      Except.map]

/-- C7 amended: for every coupon resolvable by a NON-EMPTY code, the discount
previewed by `apply_coupon` on a subtotal equals the discount `create_order`
stores for a non-empty cart summing to that subtotal with the same code. -/
theorem apply_vs_order_discount_agree (st : AppState) (p : CreateOrderPayload)
    (code : String) (c : Coupon)
    (hcode : p.coupon_code = some code) (hne : code ≠ "")
    (hfind : findActiveCouponByCode st.coupons code = some c)
    (hitems : p.items ≠ []) :
    Except.map ApplyCouponResult.discount
        (apply_coupon st.coupons
          { code := code, subtotal := (p.items.map OrderItem.total_price).sum }) =
      Except.map (fun out => out.2.order.discount) (create_order st p) := by
  by_cases helig : c.min_order ≤ (p.items.map OrderItem.total_price).sum
  · have hd : orderDiscount st.coupons p.coupon_code
        ((p.items.map OrderItem.total_price).sum)
        = (if c.type = .flat then c.value
          else (p.items.map OrderItem.total_price).sum * c.value / 100) := by
      simp [orderDiscount, hcode, hne, hfind, helig]
    simp [apply_coupon, hfind, not_lt.mpr helig, create_order, hitems, hd,
      Except.map]
  · have hd : orderDiscount st.coupons p.coupon_code
        ((p.items.map OrderItem.total_price).sum) = 0 := by
      simp [orderDiscount, hcode, hne, hfind, helig]
    have hlt : (p.items.map OrderItem.total_price).sum < c.min_order := not_le.mp helig
    have hr : round2 0 = 0 := by simp [round2]
    simp [apply_coupon, hfind, hlt, create_order, hitems, hd, hr, Except.map]

/-- Witness for the amended C7 at the seeded coupon and a 600-rupee cart. -/
theorem apply_vs_order_discount_agree_witness :
    Except.map ApplyCouponResult.discount
        (apply_coupon seededState.coupons
          { code := "PAKKTUN15",
            subtotal := (((samplePayload 600 (some ("PAKKTUN15"))).items.map
              OrderItem.total_price).sum) }) =
      Except.map (fun out => out.2.order.discount)
        (create_order seededState (samplePayload 600 (some ("PAKKTUN15")))) :=
  apply_vs_order_discount_agree seededState (samplePayload 600 (some ("PAKKTUN15")))
    "PAKKTUN15" pakktun15 rfl (by decide) rfl (by simp [samplePayload])

/-- C8: with the seeded coupon PAKKTUN15 (percent 15, minimum order 499), a
600-rupee delivery cart prices to discount 90, delivery fee 20, total 530; a
300-rupee cart is ineligible: discount 0 and total = subtotal + fee. -/
theorem seeded_coupon_scenarios :
    Except.map (fun out =>
        (out.2.order.discount, out.2.order.delivery_fee, out.2.order.total))
        (create_order seededState (samplePayload 600 (some ("PAKKTUN15")))) =
      .ok (90, 20, 530) ∧
    Except.map (fun out =>
        (out.2.order.discount, out.2.order.delivery_fee, out.2.order.total))
        (create_order seededState (samplePayload 300 (some ("PAKKTUN15")))) =
      .ok (0, 20, 300 + 20) := by
  have hf : findActiveCouponByCode seededState.coupons ("PAKKTUN15") = some pakktun15 := rfl
  have hne : ¬(("PAKKTUN15" : String) = "") := by decide
  have hr0 : round2 0 = 0 := by simp [round2]
  have hpf : ¬(CouponType.percent = CouponType.flat) := by decide
  have hdt : ¬(DeliveryType.delivery = DeliveryType.takeaway) := by decide
  constructor
  · norm_num [create_order, samplePayload, sampleItem, orderDiscount, hf, hne,
      pakktun15, round2, Except.map, hpf, hdt]
  · norm_num [create_order, samplePayload, sampleItem, orderDiscount, hf, hne,
      pakktun15, hr0, round2, Except.map, hpf, hdt]

/-- An arbitrary already-stored order, used to vary the order store. -/
def dummyOrder : Order :=
  { user_id := none, phone := "8888888888", items := [sampleItem 100],
    subtotal := 100, discount := 0, delivery_fee := 20, total := 120,
    delivery_type := .delivery, address := none, payment_method := .cod,
    payment_status := .cod, status := .pending, eta_minutes := some 35,
    coupon_code := none, notes := none }

/-- C9: pricing is deterministic and stateless — the priced order document
and the coupon-preview response depend only on the coupon store and the
request (not on previously stored orders), and a successful `create_order`
never changes the coupon store, only appending to the orders. -/
theorem pricing_deterministic_and_pure (st₁ st₂ : AppState)
    (p : CreateOrderPayload) (q : ApplyCouponPayload)
    (h : st₁.coupons = st₂.coupons) :
    Except.map (fun out => out.2.order) (create_order st₁ p) =
      Except.map (fun out => out.2.order) (create_order st₂ p) ∧
    (∀ stp r, create_order st₁ p = .ok (stp, r) → stp.coupons = st₁.coupons) ∧
    apply_coupon st₁.coupons q = apply_coupon st₂.coupons q := by
  refine ⟨?_, ?_, by rw [h]⟩
  · by_cases hi : p.items = []
    · simp [create_order, hi]
    · unfold create_order
      rw [if_neg hi, if_neg hi]
      simp only [Except.map]
      rw [h]
  · intro stp r hok
    by_cases hi : p.items = []
    · simp [create_order, hi] at hok
    · unfold create_order at hok
      rw [if_neg hi] at hok
      simp only [Except.ok.injEq, Prod.mk.injEq] at hok
      obtain ⟨h1, h2⟩ := hok
      subst h1
      rfl

/-- Witness for C9: same coupon store, different stored orders. -/
theorem pricing_deterministic_and_pure_witness :
    Except.map (fun out => out.2.order)
        (create_order seededState (samplePayload 600 (some ("PAKKTUN15")))) =
      Except.map (fun out => out.2.order)
        (create_order (AppState.mk [pakktun15] [dummyOrder])
          (samplePayload 600 (some ("PAKKTUN15")))) ∧
    apply_coupon seededState.coupons { code := "PAKKTUN15", subtotal := 600 } =
      apply_coupon (AppState.mk [pakktun15] [dummyOrder]).coupons
        { code := "PAKKTUN15", subtotal := 600 } :=
  ⟨(pricing_deterministic_and_pure seededState (AppState.mk [pakktun15] [dummyOrder])
      (samplePayload 600 (some ("PAKKTUN15"))) (ApplyCouponPayload.mk ("PAKKTUN15") 600)
      rfl).1,
   (pricing_deterministic_and_pure seededState (AppState.mk [pakktun15] [dummyOrder])
      (samplePayload 600 (some ("PAKKTUN15"))) (ApplyCouponPayload.mk ("PAKKTUN15") 600)
      rfl).2.2⟩

/-- C10: a successful `create_order` returns and persists the caller-supplied
coupon code verbatim — the stored record is exactly the returned order
appended to the store — whatever discount was computed. -/
theorem order_records_coupon_code (st : AppState) (p : CreateOrderPayload)
    (stp : AppState) (r : CreateOrderResponse)
    (hok : create_order st p = .ok (stp, r)) :
    r.order.coupon_code = p.coupon_code ∧ stp.orders = st.orders ++ [r.order] := by
  by_cases hi : p.items = []
  · simp [create_order, hi] at hok
  · unfold create_order at hok
    rw [if_neg hi] at hok
    simp only [Except.ok.injEq, Prod.mk.injEq] at hok
    obtain ⟨h1, h2⟩ := hok
    subst h1
    subst h2
    exact ⟨rfl, rfl⟩

/-- A 100-rupee takeaway order carrying an unresolvable coupon code. -/
def fakeCodePayload : CreateOrderPayload :=
  { phone := "9999999999", items := [sampleItem 100], delivery_type := .takeaway,
    address := none, coupon_code := some ("FAKE10"), payment_method := .cod }

/-- The order document `create_order` builds for `fakeCodePayload`. -/
def fakeOrder : Order :=
  { user_id := none, phone := "9999999999", items := [sampleItem 100],
    subtotal := 100, discount := 0, delivery_fee := 0, total := 100,
    delivery_type := .takeaway, address := none, payment_method := .cod,
    payment_status := .cod, status := .pending, eta_minutes := some 35,
    coupon_code := some ("FAKE10"), notes := none }

/-- Witness for C10: the unknown code "FAKE10" is persisted verbatim with
discount 0. -/
theorem order_records_coupon_code_witness :
    (CreateOrderResponse.mk fakeOrder none).order.coupon_code =
      fakeCodePayload.coupon_code ∧
    (AppState.mk [pakktun15] [fakeOrder]).orders =
      seededState.orders ++ [(CreateOrderResponse.mk fakeOrder none).order] :=
  order_records_coupon_code seededState fakeCodePayload
    (AppState.mk [pakktun15] [fakeOrder]) (CreateOrderResponse.mk fakeOrder none)
    (by
      have hf : findActiveCouponByCode [pakktun15] "FAKE10" = none := rfl
      have hne : ¬(("FAKE10" : String) = "") := by decide
      have hcr : ¬(PaymentMethod.cod = PaymentMethod.razorpay) := by decide
      have hcu : ¬(PaymentMethod.cod = PaymentMethod.upi) := by decide
      norm_num [create_order, fakeCodePayload, fakeOrder, sampleItem, seededState,
        orderDiscount, hf, hne, hcr, hcu, round2, Except.map])

end PakkhtunBiryani
